import Mathlib

/-!
Verification of the client-side API access layer of the Finanzen repository
(`src/frontend/src/services/apiService.js`) and of its deployment startup
script. The JavaScript service class `SAPApiService` wraps five remote
operations behind `fetch` calls; each operation is a `try { fetch; json() }
catch { fallback }` block. We embed the JSON data model, the transport
behaviours visible to the code (network fault, delivered response whose body
parses or fails to parse), the request each operation issues, and the
operations themselves, and prove the contract properties over them.
Console logging in the catch blocks has no effect on results or requests and
is not modelled.
-/

/-- JSON values as delivered by `response.json()`. -/
inductive JVal where
  | jnull : JVal
  | jbool : Bool → JVal
  | jnum : Int → JVal
  | jstr : String → JVal
  | jarr : List JVal → JVal
  | jobj : List (String × JVal) → JVal
deriving Repr

/-- Field lookup in a JSON object; `none` when the value is not an object or
lacks the key. -/
def JVal.lookup (v : JVal) (key : String) : Option JVal :=
  match v with
  | JVal.jobj fields =>
      match fields.find? (fun p => p.1 = key) with
      | some p => some p.2
      | none => none
  | _ => none

/-- The body of a delivered HTTP response, as seen through `response.json()`:
either it parses to a JSON value or `json()` throws with a message. -/
inductive Body where
  | parses : JVal → Body
  | malformed : String → Body

/-- One transport behaviour for one `fetch` call: either `fetch` itself throws
(network fault, with the thrown error's `message`), or a response with some
HTTP status code and some body is delivered. `fetch` does not throw on
non-success status codes. -/
inductive Transport where
  | netError : String → Transport
  | response : Nat → Body → Transport

/-- The composite `await fetch(...)` / `await response.json()` step inside each
operation's try block: it yields the parsed body, or throws the network
error's message, or throws the parse error's message. The HTTP status code of
a delivered response is never inspected by the source. -/
def fetchJson (t : Transport) : Except String JVal :=
  match t with
  | Transport.netError msg => Except.error msg
  | Transport.response _ (Body.parses v) => Except.ok v
  | Transport.response _ (Body.malformed msg) => Except.error msg

/-- JavaScript `try { ... } catch (error) { return handler(error.message) }`
around a try block that either returns a value or throws a message. -/
def jsTryCatch (tryBlock : Except String JVal) (handler : String → JVal) : JVal :=
  match tryBlock with
  | Except.ok v => v
  | Except.error msg => handler msg

/-- An HTTP request as issued by `fetch(url, options)`. A bare `fetch(url)`
uses method GET, no headers and no body. -/
structure Request where
  url : String
  method : String
  headers : List (String × String)
  body : Option String
deriving Repr

/-- The hardcoded base address `API_BASE` from the source. -/
def API_BASE : String :=
  "https://app-sap-integration-api-h7hwc9fwaugghnce.germanywestcentral-01.azurewebsites.net"

/-- Request issued by `getHealth`: bare `fetch` of `/api/health`. -/
def healthRequest : Request :=
  { url := API_BASE ++ "/api/health", method := "GET", headers := [], body := none }

/-- Request issued by `getTransactions`: bare `fetch` of
`/api/transactions-raw?limit=${limit}`, the limit argument interpolated into
the URL as its string form, unvalidated. -/
def transactionsRequest (limit : String) : Request :=
  { url := API_BASE ++ "/api/transactions-raw?limit=" ++ limit
    method := "GET", headers := [], body := none }

/-- Request issued by `getDatabaseStatus`: bare `fetch` of `/api/database-test`. -/
def databaseTestRequest : Request :=
  { url := API_BASE ++ "/api/database-test", method := "GET", headers := [], body := none }

/-- Request issued by `triggerProcessing`: `fetch` of `/api/process` with
method POST, a `Content-Type: application/json` header and no body. -/
def processRequest : Request :=
  { url := API_BASE ++ "/api/process", method := "POST"
    headers := [("Content-Type", "application/json")], body := none }

/-- Request issued by `getEnvironment`: bare `fetch` of `/api/environment`. -/
def environmentRequest : Request :=
  { url := API_BASE ++ "/api/environment", method := "GET", headers := [], body := none }

/-- Fallback returned by `getHealth`'s catch block:
`{ status: 'error', message: error.message }`. -/
def healthFallback (msg : String) : JVal :=
  JVal.jobj [("status", JVal.jstr "error"), ("message", JVal.jstr msg)]

/-- Fallback returned by `getTransactions`'s catch block:
`{ transactions: [], error: error.message }`. -/
def transactionsFallback (msg : String) : JVal :=
  JVal.jobj [("transactions", JVal.jarr []), ("error", JVal.jstr msg)]

/-- Fallback returned by `getDatabaseStatus`'s catch block:
`{ connection_test: false, error: error.message }`. -/
def databaseFallback (msg : String) : JVal :=
  JVal.jobj [("connection_test", JVal.jbool false), ("error", JVal.jstr msg)]

/-- Fallback returned by `triggerProcessing`'s catch block:
`{ status: 'error', message: error.message }`. -/
def processFallback (msg : String) : JVal :=
  JVal.jobj [("status", JVal.jstr "error"), ("message", JVal.jstr msg)]

/-- Fallback returned by `getEnvironment`'s catch block:
`{ error: error.message }`. -/
def environmentFallback (msg : String) : JVal :=
  JVal.jobj [("error", JVal.jstr msg)]

/-- `getHealth` with its network trace: it issues exactly the one health
request and returns the parsed body, or the fallback when the try block
throws. -/
def getHealthRun (t : Transport) : List Request × JVal :=
  ([healthRequest], jsTryCatch (fetchJson t) healthFallback)

/-- Result of `getHealth` for a given transport behaviour. -/
def getHealth (t : Transport) : JVal := (getHealthRun t).2

/-- `getTransactions` with its network trace. The limit parameter is
modelled by the string the template literal interpolates into the URL; the
JavaScript default argument is the number 100, which interpolates as "100". -/
def getTransactionsRun (limit : String) (t : Transport) : List Request × JVal :=
  ([transactionsRequest limit], jsTryCatch (fetchJson t) transactionsFallback)

/-- Result of `getTransactions` for a given limit and transport behaviour. -/
def getTransactions (limit : String) (t : Transport) : JVal :=
  (getTransactionsRun limit t).2

/-- String form of the JavaScript default limit argument `100`. -/
def defaultLimitString : String := "100"

/-- `getTransactions()` called with no argument: the default limit 100. -/
def getTransactionsDefaultRun (t : Transport) : List Request × JVal :=
  getTransactionsRun defaultLimitString t

/-- `getDatabaseStatus` with its network trace. -/
def getDatabaseStatusRun (t : Transport) : List Request × JVal :=
  ([databaseTestRequest], jsTryCatch (fetchJson t) databaseFallback)

/-- Result of `getDatabaseStatus` for a given transport behaviour. -/
def getDatabaseStatus (t : Transport) : JVal := (getDatabaseStatusRun t).2

/-- `triggerProcessing` with its network trace. -/
def triggerProcessingRun (t : Transport) : List Request × JVal :=
  ([processRequest], jsTryCatch (fetchJson t) processFallback)

/-- Result of `triggerProcessing` for a given transport behaviour. -/
def triggerProcessing (t : Transport) : JVal := (triggerProcessingRun t).2

/-- `getEnvironment` with its network trace. -/
def getEnvironmentRun (t : Transport) : List Request × JVal :=
  ([environmentRequest], jsTryCatch (fetchJson t) environmentFallback)

/-- Result of `getEnvironment` for a given transport behaviour. -/
def getEnvironment (t : Transport) : JVal := (getEnvironmentRun t).2

/-- The `SAPApiService` class. The source declares no fields and no
constructor state; an instance carries no data. -/
structure SAPApiService where

/-- One invocation of one of the five operations, together with the
transport behaviour its single fetch call encounters. -/
inductive Call where
  | health : Transport → Call
  | transactions : String → Transport → Call
  | databaseStatus : Transport → Call
  | process : Transport → Call
  | environment : Transport → Call

/-- Result of one invocation, independent of any service instance state. -/
def dispatch : Call → JVal
  | Call.health t => getHealth t
  | Call.transactions limit t => getTransactions limit t
  | Call.databaseStatus t => getDatabaseStatus t
  | Call.process t => triggerProcessing t
  | Call.environment t => getEnvironment t

/-- One method invocation on a service instance, threading the instance
through explicitly: the class has no fields, so no method can change it. -/
def serviceStep (s : SAPApiService) (c : Call) : SAPApiService × JVal :=
  (s, dispatch c)

/-- Run a sequence of invocations on a service instance, collecting the
results in order. -/
def serviceRun (s : SAPApiService) : List Call → List JVal
  | [] => []
  | c :: cs =>
      let step := serviceStep s c
      step.2 :: serviceRun step.1 cs

/-!
Deployment startup script (`startup.sh`). It checks for `app.py` and
`requirements.txt` in the application directory, exiting with status 1 when
either is missing, and otherwise execs into Gunicorn bound to
`0.0.0.0:$WEBSITES_PORT`. The `pip3 install` step and the echo-only check for
`msp_sap_integration_fixed.py` do not affect the script's outcome (the script
does not run under `set -e`).
-/

/-- The application directory as the startup script tests it. -/
structure AppDir where
  hasAppPy : Bool
  hasRequirementsTxt : Bool
  hasProcessingLogic : Bool

/-- Outcome of the startup script: an `exit` with a status code, or an `exec`
replacing the shell with a program and its arguments. -/
inductive ScriptResult where
  | exited : Nat → ScriptResult
  | execed : String → List String → ScriptResult
deriving Repr

/-- `WEBSITES_PORT="${WEBSITES_PORT:-8000}"`: an unset or empty environment
variable defaults to "8000". -/
def resolvePort (websitesPortEnv : String) : String :=
  if websitesPortEnv = "" then "8000" else websitesPortEnv

/-- The Gunicorn command line the script execs into, bound to the resolved
port. -/
def gunicornArgs (port : String) : List String :=
  ["--bind=0.0.0.0:" ++ port, "--timeout", "600", "--workers", "1",
   "--worker-class", "sync", "--preload", "--access-logfile", "-",
   "--error-logfile", "-", "--log-level", "info", "app:app"]

/-- The startup script's control flow: exit 1 when `app.py` is missing, exit 1
when `requirements.txt` is missing, otherwise exec Gunicorn on the resolved
port. -/
def startupScript (d : AppDir) (websitesPortEnv : String) : ScriptResult :=
  let port := resolvePort websitesPortEnv
  if d.hasAppPy = false then ScriptResult.exited 1
  else if d.hasRequirementsTxt = false then ScriptResult.exited 1
  else ScriptResult.execed "gunicorn" (gunicornArgs port)

/-- Case analysis of the JavaScript try/catch: either the try block returns a
value and that value is the result, or it throws a message and the handler's
value is the result. -/
theorem jsTryCatch_cases (e : Except String JVal) (h : String → JVal) :
    (∃ v, e = Except.ok v ∧ jsTryCatch e h = v) ∨
    (∃ m, e = Except.error m ∧ jsTryCatch e h = h m) := by
  cases e with
  | ok v => exact Or.inl ⟨v, rfl, rfl⟩
  | error m => exact Or.inr ⟨m, rfl, rfl⟩

/-- Every run of a call sequence on a stateless service instance just maps
`dispatch` over the calls. -/
theorem serviceRun_eq_map (s : SAPApiService) (l : List Call) :
    serviceRun s l = l.map dispatch := by
  induction l with
  | nil => rfl
  | cons c cs ih => simp [serviceRun, serviceStep, ih]

/-- C1: when the underlying transport call throws — whether `fetch` itself
throws a network fault or `response.json()` throws a parse fault — each of the
five operations returns exactly its documented fallback mapping and nothing
else: `getHealth` and `triggerProcessing` return exactly
`{status: "error", message}`, `getTransactions` returns exactly
`{transactions: [], error}`, `getDatabaseStatus` returns exactly
`{connection_test: false, error}`, and `getEnvironment` returns exactly
`{error}`. -/
theorem fault_returns_exact_fallback (msg : String) (status : Nat) (limit : String) :
    (getHealth (Transport.netError msg) =
        JVal.jobj [("status", JVal.jstr "error"), ("message", JVal.jstr msg)] ∧
      getHealth (Transport.response status (Body.malformed msg)) =
        JVal.jobj [("status", JVal.jstr "error"), ("message", JVal.jstr msg)]) ∧
    (getTransactions limit (Transport.netError msg) =
        JVal.jobj [("transactions", JVal.jarr []), ("error", JVal.jstr msg)] ∧
      getTransactions limit (Transport.response status (Body.malformed msg)) =
        JVal.jobj [("transactions", JVal.jarr []), ("error", JVal.jstr msg)]) ∧
    (getDatabaseStatus (Transport.netError msg) =
        JVal.jobj [("connection_test", JVal.jbool false), ("error", JVal.jstr msg)] ∧
      getDatabaseStatus (Transport.response status (Body.malformed msg)) =
        JVal.jobj [("connection_test", JVal.jbool false), ("error", JVal.jstr msg)]) ∧
    (triggerProcessing (Transport.netError msg) =
        JVal.jobj [("status", JVal.jstr "error"), ("message", JVal.jstr msg)] ∧
      triggerProcessing (Transport.response status (Body.malformed msg)) =
        JVal.jobj [("status", JVal.jstr "error"), ("message", JVal.jstr msg)]) ∧
    (getEnvironment (Transport.netError msg) =
        JVal.jobj [("error", JVal.jstr msg)] ∧
      getEnvironment (Transport.response status (Body.malformed msg)) =
        JVal.jobj [("error", JVal.jstr msg)]) :=
  ⟨⟨rfl, rfl⟩, ⟨rfl, rfl⟩, ⟨rfl, rfl⟩, ⟨rfl, rfl⟩, ⟨rfl, rfl⟩⟩

/-- C2: when the transport call succeeds and the response body parses as a
JSON value, each of the five operations returns that value itself, unchanged,
whatever the HTTP status of the response. -/
theorem success_returns_body_verbatim (status : Nat) (body : JVal) (limit : String) :
    getHealth (Transport.response status (Body.parses body)) = body ∧
    getTransactions limit (Transport.response status (Body.parses body)) = body ∧
    getDatabaseStatus (Transport.response status (Body.parses body)) = body ∧
    triggerProcessing (Transport.response status (Body.parses body)) = body ∧
    getEnvironment (Transport.response status (Body.parses body)) = body :=
  ⟨rfl, rfl, rfl, rfl, rfl⟩

/-- C3 counterexample: a delivered response with non-success HTTP status 500
whose body parses as the JSON object `{detail: "Internal Server Error"}` is
returned by `getHealth` to the caller verbatim — it is not converted to the
fixed fallback shape, which would carry a `status` field; the returned object
has no `status` field at all. -/
theorem nonSuccessStatus_returned_to_caller :
    getHealth (Transport.response 500
        (Body.parses (JVal.jobj [("detail", JVal.jstr "Internal Server Error")]))) =
      JVal.jobj [("detail", JVal.jstr "Internal Server Error")] ∧
    (JVal.jobj [("detail", JVal.jstr "Internal Server Error")]).lookup "status" = none :=
  ⟨rfl, rfl⟩

/-- C3 (amended): the layer's single error kind "remote call failed" covers a
thrown network fault and a parse failure, both converted to the operation's
fixed fallback shape; a delivered response with a non-success HTTP status is
NOT part of that error kind — the status code is never inspected, and when its
body parses as JSON the body is returned to the caller unchanged. Only a
non-success response whose body fails to parse reaches the fallback, and that
via the parse failure. -/
theorem error_kind_covers_thrown_faults_only
    (status status' : Nat) (msg : String) (body : JVal) (limit : String) :
    (getHealth (Transport.response status (Body.parses body)) = body ∧
      getHealth (Transport.netError msg) = healthFallback msg ∧
      getHealth (Transport.response status (Body.malformed msg)) = healthFallback msg ∧
      getHealth (Transport.response status (Body.parses body)) =
        getHealth (Transport.response status' (Body.parses body))) ∧
    (getTransactions limit (Transport.response status (Body.parses body)) = body ∧
      getTransactions limit (Transport.netError msg) = transactionsFallback msg ∧
      getTransactions limit (Transport.response status (Body.malformed msg)) =
        transactionsFallback msg) ∧
    (getDatabaseStatus (Transport.response status (Body.parses body)) = body ∧
      getDatabaseStatus (Transport.netError msg) = databaseFallback msg ∧
      getDatabaseStatus (Transport.response status (Body.malformed msg)) =
        databaseFallback msg) ∧
    (triggerProcessing (Transport.response status (Body.parses body)) = body ∧
      triggerProcessing (Transport.netError msg) = processFallback msg ∧
      triggerProcessing (Transport.response status (Body.malformed msg)) =
        processFallback msg) ∧
    (getEnvironment (Transport.response status (Body.parses body)) = body ∧
      getEnvironment (Transport.netError msg) = environmentFallback msg ∧
      getEnvironment (Transport.response status (Body.malformed msg)) =
        environmentFallback msg) :=
  ⟨⟨rfl, rfl, rfl, rfl⟩, ⟨rfl, rfl, rfl⟩, ⟨rfl, rfl, rfl⟩, ⟨rfl, rfl, rfl⟩, ⟨rfl, rfl, rfl⟩⟩

/-- C4: each of the five operations is total at its boundary: for every
transport behaviour, either the try block yields a value and the operation
returns it, or the try block throws a message and the operation returns the
catch block's fallback built from it — in both cases a result mapping is
returned and no fault propagates to the caller. -/
theorem operations_total_at_boundary (t : Transport) (limit : String) :
    ((∃ v, fetchJson t = Except.ok v ∧ getHealth t = v) ∨
      (∃ m, fetchJson t = Except.error m ∧ getHealth t = healthFallback m)) ∧
    ((∃ v, fetchJson t = Except.ok v ∧ getTransactions limit t = v) ∨
      (∃ m, fetchJson t = Except.error m ∧
        getTransactions limit t = transactionsFallback m)) ∧
    ((∃ v, fetchJson t = Except.ok v ∧ getDatabaseStatus t = v) ∨
      (∃ m, fetchJson t = Except.error m ∧ getDatabaseStatus t = databaseFallback m)) ∧
    ((∃ v, fetchJson t = Except.ok v ∧ triggerProcessing t = v) ∨
      (∃ m, fetchJson t = Except.error m ∧ triggerProcessing t = processFallback m)) ∧
    ((∃ v, fetchJson t = Except.ok v ∧ getEnvironment t = v) ∨
      (∃ m, fetchJson t = Except.error m ∧ getEnvironment t = environmentFallback m)) :=
  ⟨jsTryCatch_cases (fetchJson t) healthFallback,
   jsTryCatch_cases (fetchJson t) transactionsFallback,
   jsTryCatch_cases (fetchJson t) databaseFallback,
   jsTryCatch_cases (fetchJson t) processFallback,
   jsTryCatch_cases (fetchJson t) environmentFallback⟩

/-- C5: `getTransactions` called with no argument issues its single request
with `limit=100` in the query string, and called with an explicit numeric
value N it issues its single request with `limit=N` exactly. -/
theorem transactions_limit_in_query (n : Nat) (t : Transport) :
    (getTransactionsDefaultRun t).1 =
      [{ url := API_BASE ++ "/api/transactions-raw?limit=100"
         method := "GET", headers := [], body := none }] ∧
    (getTransactionsRun (toString n) t).1 =
      [{ url := API_BASE ++ "/api/transactions-raw?limit=" ++ toString n
         method := "GET", headers := [], body := none }] :=
  ⟨rfl, rfl⟩

/-- C6: `triggerProcessing` takes no caller input, and every invocation issues
its single request with method POST, a `Content-Type: application/json`
header, and no request body. -/
theorem process_request_always_post_json (t : Transport) :
    (triggerProcessingRun t).1 = [processRequest] ∧
    processRequest.method = "POST" ∧
    processRequest.headers = [("Content-Type", "application/json")] ∧
    processRequest.body = none :=
  ⟨rfl, rfl, rfl, rfl⟩

/-- C7: each of the five operations performs exactly one network round trip
per invocation — its request trace is the one-element list holding its fixed
request — directed at its fixed endpoint on the hardcoded base address:
GET /api/health, GET /api/transactions-raw?limit=N, GET /api/database-test,
POST /api/process, and GET /api/environment. -/
theorem one_round_trip_fixed_endpoints (t : Transport) (n : Nat) :
    ((getHealthRun t).1 = [healthRequest] ∧
      healthRequest.method = "GET" ∧
      healthRequest.url = API_BASE ++ "/api/health") ∧
    ((getTransactionsRun (toString n) t).1 = [transactionsRequest (toString n)] ∧
      (transactionsRequest (toString n)).method = "GET" ∧
      (transactionsRequest (toString n)).url =
        API_BASE ++ "/api/transactions-raw?limit=" ++ toString n) ∧
    ((getDatabaseStatusRun t).1 = [databaseTestRequest] ∧
      databaseTestRequest.method = "GET" ∧
      databaseTestRequest.url = API_BASE ++ "/api/database-test") ∧
    ((triggerProcessingRun t).1 = [processRequest] ∧
      processRequest.method = "POST" ∧
      processRequest.url = API_BASE ++ "/api/process") ∧
    ((getEnvironmentRun t).1 = [environmentRequest] ∧
      environmentRequest.method = "GET" ∧
      environmentRequest.url = API_BASE ++ "/api/environment") :=
  ⟨⟨rfl, rfl, rfl⟩, ⟨rfl, rfl, rfl⟩, ⟨rfl, rfl, rfl⟩, ⟨rfl, rfl, rfl⟩, ⟨rfl, rfl, rfl⟩⟩

/-- C8: the access layer is stateless and deterministic modulo the transport:
a method invocation leaves the service instance unchanged, two invocations of
the same call on any two instances produce equal results, and a call's result
is the same whatever sequence of calls ran before it on whatever instance. -/
theorem stateless_history_independent
    (s₁ s₂ : SAPApiService) (h₁ h₂ : List Call) (c : Call) :
    (serviceStep s₁ c).1 = s₁ ∧
    (serviceStep s₁ c).2 = (serviceStep s₂ c).2 ∧
    (serviceRun s₁ (h₁ ++ [c])).getLast? = (serviceRun s₂ (h₂ ++ [c])).getLast? := by
  refine ⟨rfl, rfl, ?_⟩
  simp [serviceRun_eq_map]

/-- C9: `getTransactions` performs no validation, clamping or numeric
coercion of its limit argument: for every string form v of the argument —
covering negative, fractional or non-numeric JavaScript values alike — the
single request URL is the base address followed by
`/api/transactions-raw?limit=` and v, interpolated as-is. -/
theorem transactions_limit_uninterpreted (v : String) (t : Transport) :
    (getTransactionsRun v t).1 =
      [{ url := API_BASE ++ "/api/transactions-raw?limit=" ++ v
         method := "GET", headers := [], body := none }] :=
  rfl

/-- C10: the startup script terminates with the non-zero exit status 1 when
either required file (`app.py`, `requirements.txt`) is absent from the
application directory, and otherwise execs into the Gunicorn server process
bound to the port resolved from the `WEBSITES_PORT` environment variable. -/
theorem startup_script_checks_then_execs (d : AppDir) (env : String) :
    ((d.hasAppPy = false ∨ d.hasRequirementsTxt = false) →
      startupScript d env = ScriptResult.exited 1 ∧ (1 : Nat) ≠ 0) ∧
    (d.hasAppPy = true → d.hasRequirementsTxt = true →
      startupScript d env =
        ScriptResult.execed "gunicorn" (gunicornArgs (resolvePort env))) := by
  obtain ⟨a, r, p⟩ := d
  cases a <;> cases r <;>
    simp [startupScript]

/-- Witness for C10 at concrete inputs: a directory missing `app.py` makes the
script exit 1, and a complete directory with `WEBSITES_PORT=8080` makes it
exec Gunicorn on port 8080. -/
theorem startup_script_checks_then_execs_witness :
    (startupScript ⟨false, true, true⟩ "" = ScriptResult.exited 1 ∧ (1 : Nat) ≠ 0) ∧
    startupScript ⟨true, true, true⟩ "8080" =
      ScriptResult.execed "gunicorn" (gunicornArgs (resolvePort "8080")) :=
  ⟨(startup_script_checks_then_execs ⟨false, true, true⟩ "").1 (Or.inl rfl),
   (startup_script_checks_then_execs ⟨true, true, true⟩ "8080").2 rfl rfl⟩
